import Mathlib

/-!
Verification of the credential/authentication core of the
`tools-for-google-drive-integration` repository: the `AuthManager` family
(`agent_ready_tools/clients/auth_manager.py`) and the re-auth-on-401 retry
loop of `GoogleClient._request_with_reauth`
(`agent_ready_tools/clients/google_client.py`).

The Python code is shallowly embedded: the object state (exactly the
attributes assigned in `AuthManager.__init__`) becomes a structure, JSON
values in token-endpoint responses become an inductive type (`null` or a
string), and fallible operations return an explicit error alongside the
resulting state.  Two attributes that the source references but never
assigns (`initial_bearer_token`, `initial_refresh_token`: their assignments
are commented out at lines 35-36 of `auth_manager.py`) are deliberately
absent from the state; reading them is modelled as an `AttributeError`,
exactly as CPython would raise it.
-/

namespace AuthCore

/-- A JSON value as it appears in a token-endpoint response body or in the
persisted cache file: either JSON `null` (Python `None`) or a string. -/
inductive JVal where
  | null : JVal
  | str : String → JVal
deriving DecidableEq, Repr

/-- Python `str(v)`: `str(None) = "None"`, `str(s) = s` for a string `s`. -/
def JVal.pyStr : JVal → String
  | .null => "None"
  | .str s => s

/-- Coercion of a JSON value to Python `Optional[str]`: assigning a JSON
`null` to an `Optional[str]` field stores Python `None`. -/
def JVal.toOpt : JVal → Option String
  | .null => none
  | .str s => some s

/-- A JSON object (Python `dict`), as used for response bodies, the `tokens`
dict built by the refresh methods, and the persisted cache file. -/
abbrev JObj := List (String × JVal)

/-- Python `d.get(key)` distinguishing absence from a present `null`:
`none` = key absent, `some .null` = key present with value `null`. -/
def JObj.getVal : JObj → String → Option JVal
  | [], _ => none
  | (k, v) :: rest, key => if k == key then some v else JObj.getVal rest key

/-- Python `key in d`. -/
def JObj.hasKey (o : JObj) (key : String) : Bool :=
  (o.getVal key).isSome

/-- Python truthiness of an `Optional[str]`: `None` and `""` are falsy. -/
def pyTruthy : Option String → Bool
  | none => false
  | some s => s != ""

/-- The errors the embedded code can raise. -/
inductive PyErr where
  | attributeError (name : String)
  | keyError (key : String)
  | httpError (status : Nat)
deriving DecidableEq, Repr

/-- `self.bearer_token_resp_key` (auth_manager.py line 39). -/
def bearerKey : String := "access_token"

/-- `self.refresh_token_resp_key` (auth_manager.py line 40). -/
def refreshKey : String := "refresh_token"

/-- The mutable state of an `AuthManager` instance: exactly the attributes
that `__init__` assigns and the refresh/update methods read or write.
`disk` is the content of the cache file at `creds_path` (`none` = the file
does not exist).  Note that `initial_bearer_token` and
`initial_refresh_token` are NOT fields: their assignments are commented out
in `__init__` (auth_manager.py lines 35-36). -/
structure AMState where
  memBearer : Option String
  memRefresh : Option String
  canWrite : Bool
  disk : Option JObj
deriving DecidableEq, Repr

/-- `AuthManager._get_cred_from_server_cache` (auth_manager.py lines 63-85):
for the bearer key it returns `self._in_memory_bearer_token`, for the
refresh key `self._in_memory_refresh_token`, in both cases unconditionally
(even when the in-memory value is `None`); only for any other key does it
fall through to the guarded disk read, returning `d.get(key)` when the
directory was writable and the file exists, else `None`. -/
def getCredFromServerCache (st : AMState) (key : String) : Option String :=
  if key == bearerKey then st.memBearer
  else if key == refreshKey then st.memRefresh
  else if st.canWrite then
    match st.disk with
    | some d => (d.getVal key).bind JVal.toOpt
    | none => none
  else none

/-- The guarded `json.dump(creds, f)` of `_update_server_creds_cache`
(auth_manager.py lines 99-105): the write replaces the file's content with
exactly the `creds` dict; `writeFails` models an I/O or permission error
raised by `mkdir`/`open`/`dump`. -/
def diskDump (writeFails : Bool) (creds : JObj) : Except PyErr JObj :=
  if writeFails then .error (.httpError 0) else .ok creds

/-- `AuthManager._update_server_creds_cache` (auth_manager.py lines 87-106):
first overwrite each in-memory field whose key is present in `creds`, then,
only if `_can_write_to_cache`, attempt the disk write; an exception from the
write is caught (logged as a warning) and never propagates, so the function
is total and the in-memory update always survives. -/
def updateServerCredsCache (writeFails : Bool) (creds : JObj) (st : AMState) :
    AMState :=
  let st1 :=
    match creds.getVal bearerKey with
    | some v => { st with memBearer := v.toOpt }
    | none => st
  let st2 :=
    match creds.getVal refreshKey with
    | some v => { st1 with memRefresh := v.toOpt }
    | none => st1
  if st2.canWrite then
    match diskDump writeFails creds with
    | .ok d => { st2 with disk := some d }
    | .error _ => st2
  else st2

/-- `AuthManager.get_bearer_token` (auth_manager.py lines 133-147): return
the in-memory bearer token if truthy; else consult
`_get_cred_from_server_cache` and return its result if truthy; else
evaluate `self.initial_bearer_token` — an attribute whose assignment is
commented out in `__init__`, so this last branch raises `AttributeError`. -/
def getBearerToken (st : AMState) : Except PyErr String :=
  match st.memBearer with
  | some s =>
    if s != "" then .ok s
    else
      match getCredFromServerCache st bearerKey with
      | some t =>
        if t != "" then .ok t else .error (.attributeError "initial_bearer_token")
      | none => .error (.attributeError "initial_bearer_token")
  | none =>
    match getCredFromServerCache st bearerKey with
    | some t =>
      if t != "" then .ok t else .error (.attributeError "initial_bearer_token")
    | none => .error (.attributeError "initial_bearer_token")

/-- The shared refresh-token resolution of all three `refresh_bearer_token`
variants (auth_manager.py lines 114-117, 184-187, 266-269):
`self._get_cred_from_server_cache(self.refresh_token_resp_key) or
self.initial_refresh_token`.  When the cache value is falsy, Python
evaluates `self.initial_refresh_token`, an attribute never assigned
(its assignment is commented out at line 36), raising `AttributeError`. -/
def resolveRefreshToken (st : AMState) : Except PyErr String :=
  match getCredFromServerCache st refreshKey with
  | some s =>
    if s != "" then .ok s else .error (.attributeError "initial_refresh_token")
  | none => .error (.attributeError "initial_refresh_token")

/-- `requests.Response.raise_for_status`: raises `HTTPError` exactly for
status codes in 400-599 (4xx "Client Error", 5xx "Server Error"); any other
status, including 3xx, does not raise. -/
def raiseForStatus (status : Nat) : Except PyErr Unit :=
  if 400 ≤ status ∧ status < 600 then .error (.httpError status) else .ok ()

/-- An HTTP response from the token endpoint: status code and parsed JSON
body. -/
abbrev TokResponse := Nat × JObj

/-- The observable outcome of one `refresh_bearer_token` call: the error it
raised (if any), the state it left behind, and the refresh tokens it sent
over HTTP (one list entry per POST to the token endpoint). -/
structure RefreshOutcome where
  err : Option PyErr
  st : AMState
  sent : List String
deriving DecidableEq, Repr

/-- `AuthManager.refresh_bearer_token` (auth_manager.py lines 108-131), the
generic variant: sandbox short-circuit; resolve the refresh token; POST it;
`raise_for_status`; then build `tokens` as a comprehension keeping only the
keys among {access_token, refresh_token} whose response value is not `None`,
stringified with `str`; finally `_update_server_creds_cache(tokens)`. -/
def refreshBearerToken (sandbox : Bool) (resp : TokResponse)
    (writeFails : Bool) (st : AMState) : RefreshOutcome :=
  if sandbox then ⟨none, st, []⟩
  else
    match resolveRefreshToken st with
    | .error e => ⟨some e, st, []⟩
    | .ok rt =>
      match raiseForStatus resp.1 with
      | .error e => ⟨some e, st, [rt]⟩
      | .ok _ =>
        let tokens : JObj :=
          [bearerKey, refreshKey].filterMap fun k =>
            match resp.2.getVal k with
            | some (.str s) => some (k, JVal.str s)
            | some .null => none
            | none => none
        ⟨none, updateServerCredsCache writeFails tokens st, [rt]⟩

/-- `GoogleAuthManager.refresh_bearer_token` (auth_manager.py lines
179-229): sandbox short-circuit; resolve the refresh token; POST the
Google-shaped payload; `raise_for_status`; then
`new_access_token = str(resp[access_token])` (a `KeyError` if absent),
`new_refresh_token = resp.get(refresh_token, refresh_token_sent)` — the
response value (possibly `null`) if the key is present, else the token just
sent; finally update with both keys. -/
def googleRefreshBearerToken (sandbox : Bool) (resp : TokResponse)
    (writeFails : Bool) (st : AMState) : RefreshOutcome :=
  if sandbox then ⟨none, st, []⟩
  else
    match resolveRefreshToken st with
    | .error e => ⟨some e, st, []⟩
    | .ok rt =>
      match raiseForStatus resp.1 with
      | .error e => ⟨some e, st, [rt]⟩
      | .ok _ =>
        match resp.2.getVal bearerKey with
        | none => ⟨some (.keyError bearerKey), st, [rt]⟩
        | some bv =>
          let newAccessToken := bv.pyStr
          let newRefreshToken : JVal := (resp.2.getVal refreshKey).getD (.str rt)
          let tokens : JObj :=
            [(bearerKey, JVal.str newAccessToken), (refreshKey, newRefreshToken)]
          ⟨none, updateServerCredsCache writeFails tokens st, [rt]⟩

/-- `HubSpotAuthManager.refresh_bearer_token` (auth_manager.py lines
261-285): sandbox short-circuit; resolve the refresh token; POST the
HubSpot-shaped payload; `raise_for_status`; then build `tokens` mapping the
refresh key to the refresh token that was SENT (the response's refresh-token
field, if any, is ignored) and the bearer key to `str(resp[access_token])`
(a `KeyError` if absent); finally update. -/
def hubspotRefreshBearerToken (sandbox : Bool) (resp : TokResponse)
    (writeFails : Bool) (st : AMState) : RefreshOutcome :=
  if sandbox then ⟨none, st, []⟩
  else
    match resolveRefreshToken st with
    | .error e => ⟨some e, st, []⟩
    | .ok rt =>
      match raiseForStatus resp.1 with
      | .error e => ⟨some e, st, [rt]⟩
      | .ok _ =>
        match resp.2.getVal bearerKey with
        | none => ⟨some (.keyError bearerKey), st, [rt]⟩
        | some bv =>
          let tokens : JObj :=
            [(refreshKey, JVal.str rt), (bearerKey, JVal.str bv.pyStr)]
          ⟨none, updateServerCredsCache writeFails tokens st, [rt]⟩

/-- The environment of one `GoogleClient._request_with_reauth` call: the
sandbox flag and disk behaviour seen by the (up to two) refresh calls, the
status codes the data-plane endpoint answers to the first and second
attempt, and the token-endpoint responses to the first and second refresh. -/
structure ReqEnv where
  sandbox : Bool
  writeFails : Bool
  req1Status : Nat
  req2Status : Nat
  tokResp1 : TokResponse
  tokResp2 : TokResponse

/-- The observable outcome of one `_request_with_reauth` call: the error it
raised (if any), the status of the response it returned (`none` when an
exception propagated instead), how many times `refresh_bearer_token` was
called, the bearer tokens attached to the issued requests (one per
attempt), and the final auth-manager state. -/
structure ReqResult where
  err : Option PyErr
  response : Option Nat
  refreshCalls : Nat
  tokensUsed : List String
  st : AMState
deriving DecidableEq, Repr

/-- `GoogleClient._request_with_reauth` (google_client.py lines 44-72), the
`for _ in range(2)` loop unrolled: attempt 1 with the current bearer token;
on a non-401 status break and return that response; on 401 call
`GoogleAuthManager.refresh_bearer_token` (propagating its exceptions),
re-read the bearer token, issue attempt 2, and — because the loop body runs
its 401 check again on the second iteration — call refresh a second time if
attempt 2 is also 401, before the loop exhausts and the second response is
returned. -/
def requestWithReauth (env : ReqEnv) (st : AMState) : ReqResult :=
  match getBearerToken st with
  | .error e => ⟨some e, none, 0, [], st⟩
  | .ok t1 =>
    if env.req1Status == 401 then
      let r1 := googleRefreshBearerToken env.sandbox env.tokResp1 env.writeFails st
      match r1.err with
      | some e => ⟨some e, none, 1, [t1], r1.st⟩
      | none =>
        match getBearerToken r1.st with
        | .error e => ⟨some e, none, 1, [t1], r1.st⟩
        | .ok t2 =>
          if env.req2Status == 401 then
            let r2 :=
              googleRefreshBearerToken env.sandbox env.tokResp2 env.writeFails r1.st
            match r2.err with
            | some e => ⟨some e, none, 2, [t1, t2], r2.st⟩
            | none => ⟨none, some env.req2Status, 2, [t1, t2], r2.st⟩
          else ⟨none, some env.req2Status, 1, [t1, t2], r1.st⟩
    else ⟨none, some env.req1Status, 0, [t1], st⟩

end AuthCore

namespace AuthCore

/-! ### Helper lemmas shared by the claim theorems -/

theorem getCred_bearerKey (st : AMState) :
    getCredFromServerCache st bearerKey = st.memBearer := by
  simp [getCredFromServerCache]

theorem getCred_refreshKey (st : AMState) :
    getCredFromServerCache st refreshKey = st.memRefresh := by
  simp [getCredFromServerCache, refreshKey, bearerKey]

theorem resolveRefreshToken_ok (st : AMState) (rt : String)
    (h : resolveRefreshToken st = .ok rt) : st.memRefresh = some rt := by
  unfold resolveRefreshToken at h
  rw [getCred_refreshKey] at h
  cases hm : st.memRefresh with
  | none => rw [hm] at h; exact absurd h (by simp)
  | some s =>
    rw [hm] at h
    by_cases hs : s = ""
    · subst hs; simp at h
    · simp [hs] at h; rw [h]

theorem updateServerCredsCache_memBearer (wf : Bool) (creds : JObj)
    (st : AMState) :
    (updateServerCredsCache wf creds st).memBearer =
      match creds.getVal bearerKey with
      | some v => v.toOpt
      | none => st.memBearer := by
  unfold updateServerCredsCache diskDump
  cases hb : creds.getVal bearerKey <;> cases hr : creds.getVal refreshKey <;>
    cases wf <;> simp <;> split <;> rfl

theorem updateServerCredsCache_memRefresh (wf : Bool) (creds : JObj)
    (st : AMState) :
    (updateServerCredsCache wf creds st).memRefresh =
      match creds.getVal refreshKey with
      | some v => v.toOpt
      | none => st.memRefresh := by
  unfold updateServerCredsCache diskDump
  cases hb : creds.getVal bearerKey <;> cases hr : creds.getVal refreshKey <;>
    cases wf <;> simp <;> split <;> rfl

end AuthCore

namespace AuthCore

/-! ### Claim theorems -/

/-- C1 (code bug): the claim says `get_bearer_token()` always returns a
string, falling back to the initial bearer token supplied at construction.
In the code the fallback attribute `self.initial_bearer_token` is never
assigned (its assignment is commented out at auth_manager.py line 35), so
on a state whose in-memory bearer token is falsy — e.g. an `AuthManager`
constructed with `initial_bearer_token = ""` — `get_bearer_token()` raises
`AttributeError` instead of returning a string. -/
theorem C1_get_bearer_token_raises_attribute_error :
    getBearerToken ⟨some "", some "r", false, none⟩ =
      .error (.attributeError "initial_bearer_token") := rfl

/-- C3 counterexample: on a state whose in-memory bearer token is unset
(`None`), with directory writability confirmed and the cache file existing
with a value `"d"` stored under the bearer key, `_get_cred_from_server_cache`
returns absence, not the persisted value `"d"`: the early `return` of the
in-memory field fires even when that field is `None`, so the disk branch is
never reached for the bearer/refresh keys. -/
theorem C3_counterexample :
    getCredFromServerCache ⟨none, some "r", true, some [(bearerKey, JVal.str "d")]⟩
        bearerKey = none ∧
    getCredFromServerCache ⟨none, some "r", true, some [(bearerKey, JVal.str "d")]⟩
        bearerKey ≠ some "d" := by
  exact ⟨rfl, by decide⟩

/-- C3 (amended): for the bearer and refresh keys, `_get_cred_from_server_cache`
returns the in-memory value unconditionally — including absence when that
value is `None` — and never consults the persisted cache file; the disk
fallback applies only to keys other than these two. -/
theorem C3_get_returns_memory_for_cred_keys (st : AMState) :
    getCredFromServerCache st bearerKey = st.memBearer ∧
    getCredFromServerCache st refreshKey = st.memRefresh :=
  ⟨getCred_bearerKey st, getCred_refreshKey st⟩

/-- C4 (code bug): the claim says that when the store holds no (truthy)
refresh token, the refresh token sent to the endpoint is the initial refresh
token supplied at construction.  In the code the fallback attribute
`self.initial_refresh_token` is never assigned (its assignment is commented
out at auth_manager.py line 36), so every variant of
`refresh_bearer_token()` raises `AttributeError` before issuing any HTTP
request — here evaluated on a state constructed with
`initial_refresh_token = ""`. -/
theorem C4_refresh_raises_attribute_error_when_refresh_token_falsy :
    refreshBearerToken false (200, []) false ⟨some "b", some "", false, none⟩ =
      ⟨some (.attributeError "initial_refresh_token"),
        ⟨some "b", some "", false, none⟩, []⟩ ∧
    googleRefreshBearerToken false (200, []) false ⟨some "b", some "", false, none⟩ =
      ⟨some (.attributeError "initial_refresh_token"),
        ⟨some "b", some "", false, none⟩, []⟩ ∧
    hubspotRefreshBearerToken false (200, []) false ⟨some "b", some "", false, none⟩ =
      ⟨some (.attributeError "initial_refresh_token"),
        ⟨some "b", some "", false, none⟩, []⟩ :=
  ⟨rfl, rfl, rfl⟩

/-- C6: with the sandbox flag true, every `refresh_bearer_token` variant
returns immediately: no error, no HTTP call (the list of refresh tokens sent
is empty), and the state — both the bearer token and the refresh token — is
exactly unchanged. -/
theorem C6_sandbox_refresh_is_noop (resp : TokResponse) (wf : Bool)
    (st : AMState) :
    refreshBearerToken true resp wf st = ⟨none, st, []⟩ ∧
    googleRefreshBearerToken true resp wf st = ⟨none, st, []⟩ ∧
    hubspotRefreshBearerToken true resp wf st = ⟨none, st, []⟩ :=
  ⟨rfl, rfl, rfl⟩

/-- C9: `_update_server_creds_cache` is a total function — the guarded disk
write catches its own exception, so the call never raises — and for every
outcome of the disk write (`wf` = write fails or succeeds) the in-memory
bearer/refresh fields end up overwritten with exactly the values present in
`creds`, fields absent from `creds` being left as they were. -/
theorem C9_update_never_raises_memory_always_updated (wf : Bool)
    (creds : JObj) (st : AMState) :
    (updateServerCredsCache wf creds st).memBearer =
      (match creds.getVal bearerKey with
        | some v => v.toOpt
        | none => st.memBearer) ∧
    (updateServerCredsCache wf creds st).memRefresh =
      (match creds.getVal refreshKey with
        | some v => v.toOpt
        | none => st.memRefresh) :=
  ⟨updateServerCredsCache_memBearer wf creds st,
    updateServerCredsCache_memRefresh wf creds st⟩

end AuthCore

namespace AuthCore

/-- C5 counterexample: the claim says every non-2xx token-endpoint status
propagates an error with no state update, but `raise_for_status` only raises
for 4xx/5xx.  On a 303 response whose body carries an `access_token`, the
generic refresh raises no error and DOES update the stored bearer token. -/
theorem C5_counterexample :
    (refreshBearerToken false (303, [(bearerKey, JVal.str "b2")]) false
        ⟨some "b", some "r", false, none⟩).err = none ∧
    (refreshBearerToken false (303, [(bearerKey, JVal.str "b2")]) false
        ⟨some "b", some "r", false, none⟩).st ≠
      ⟨some "b", some "r", false, none⟩ ∧
    ¬ (200 ≤ 303 ∧ 303 < 300) := by
  refine ⟨rfl, by decide, by decide⟩

/-- C5 (amended): for every refresh variant reached with a resolvable
refresh token, a token-endpoint status in 400-599 (the statuses
`raise_for_status` treats as errors — statuses outside 200-299 but also
outside 400-599, such as 3xx, are not raised) makes the call propagate an
`HTTPError` and leaves the whole state, in memory and on disk, exactly as it
was: no partial update. -/
theorem C5_refresh_4xx_5xx_propagates_and_preserves_state
    (resp : TokResponse) (wf : Bool) (st : AMState) (rt : String)
    (hres : resolveRefreshToken st = .ok rt)
    (h4 : 400 ≤ resp.1) (h6 : resp.1 < 600) :
    refreshBearerToken false resp wf st =
      ⟨some (.httpError resp.1), st, [rt]⟩ ∧
    googleRefreshBearerToken false resp wf st =
      ⟨some (.httpError resp.1), st, [rt]⟩ ∧
    hubspotRefreshBearerToken false resp wf st =
      ⟨some (.httpError resp.1), st, [rt]⟩ := by
  have hr : raiseForStatus resp.1 = .error (.httpError resp.1) := by
    unfold raiseForStatus
    rw [if_pos ⟨h4, h6⟩]
  refine ⟨?_, ?_, ?_⟩ <;>
    simp [refreshBearerToken, googleRefreshBearerToken,
      hubspotRefreshBearerToken, hres, hr]

/-- C5 witness: the amended theorem applied at a concrete 401 response and a
concrete state. -/
theorem C5_witness :
    refreshBearerToken false (401, []) false ⟨some "b", some "r", false, none⟩ =
      ⟨some (.httpError 401), ⟨some "b", some "r", false, none⟩, ["r"]⟩ :=
  (C5_refresh_4xx_5xx_propagates_and_preserves_state (401, []) false
    ⟨some "b", some "r", false, none⟩ "r" rfl (by decide) (by decide)).1

end AuthCore

namespace AuthCore

/-- C7: whenever a HubSpot `refresh_bearer_token` call completes
successfully having sent the refresh token `rt` to the endpoint, the refresh
token stored afterwards is `rt` itself — regardless of what the response
body contains under the refresh-token field, which the HubSpot variant never
reads. -/
theorem C7_hubspot_stores_sent_refresh_token (sandbox : Bool)
    (resp : TokResponse) (wf : Bool) (st : AMState) (rt : String)
    (st' : AMState)
    (h : hubspotRefreshBearerToken sandbox resp wf st = ⟨none, st', [rt]⟩) :
    st'.memRefresh = some rt := by
  unfold hubspotRefreshBearerToken at h
  cases sandbox with
  | true => simp at h
  | false =>
    simp only [Bool.false_eq_true, if_false] at h
    cases hres : resolveRefreshToken st with
    | error e => rw [hres] at h; simp at h
    | ok rt0 =>
      rw [hres] at h
      cases hrs : raiseForStatus resp.1 with
      | error e => rw [hrs] at h; simp at h
      | ok u =>
        rw [hrs] at h
        cases hbv : resp.2.getVal bearerKey with
        | none => rw [hbv] at h; simp at h
        | some bv =>
          rw [hbv] at h
          simp only [RefreshOutcome.mk.injEq, List.cons.injEq,
            and_true] at h
          obtain ⟨-, hst, hrt⟩ := h
          subst hrt
          rw [← hst, updateServerCredsCache_memRefresh]
          rfl

/-- C7 witness: the theorem applied at a concrete successful HubSpot refresh
whose response even carries a rotated refresh token, which is ignored. -/
theorem C7_witness :
    (hubspotRefreshBearerToken false
        (200, [(bearerKey, JVal.str "nb"), (refreshKey, JVal.str "rot")]) false
        ⟨some "b", some "r", false, none⟩).st.memRefresh = some "r" :=
  C7_hubspot_stores_sent_refresh_token false
    (200, [(bearerKey, JVal.str "nb"), (refreshKey, JVal.str "rot")]) false
    ⟨some "b", some "r", false, none⟩ "r"
    ((hubspotRefreshBearerToken false
        (200, [(bearerKey, JVal.str "nb"), (refreshKey, JVal.str "rot")]) false
        ⟨some "b", some "r", false, none⟩).st) rfl

theorem getVal_google_tokens (bv x : JVal) :
    JObj.getVal [(bearerKey, bv), (refreshKey, x)] refreshKey = some x :=
  rfl

/-- C8: whenever a Google `refresh_bearer_token` call completes successfully
having sent the refresh token `rt`: if the response body has no
`refresh_token` field, the stored refresh token afterwards equals what it
was before the call (namely `some rt`, the token that was sent); if the body
does have a `refresh_token` field, the stored refresh token becomes that
field's value (a JSON `null` storing Python `None`). -/
theorem C8_google_refresh_token_rotation (sandbox : Bool)
    (resp : TokResponse) (wf : Bool) (st : AMState) (rt : String)
    (st' : AMState)
    (h : googleRefreshBearerToken sandbox resp wf st = ⟨none, st', [rt]⟩) :
    (resp.2.getVal refreshKey = none → st'.memRefresh = st.memRefresh) ∧
    (∀ v, resp.2.getVal refreshKey = some v → st'.memRefresh = v.toOpt) := by
  unfold googleRefreshBearerToken at h
  cases sandbox with
  | true => simp at h
  | false =>
    simp only [Bool.false_eq_true, if_false] at h
    cases hres : resolveRefreshToken st with
    | error e => rw [hres] at h; simp at h
    | ok rt0 =>
      rw [hres] at h
      cases hrs : raiseForStatus resp.1 with
      | error e => rw [hrs] at h; simp at h
      | ok u =>
        rw [hrs] at h
        cases hbv : resp.2.getVal bearerKey with
        | none => rw [hbv] at h; simp at h
        | some bv =>
          rw [hbv] at h
          simp only [RefreshOutcome.mk.injEq, List.cons.injEq,
            and_true] at h
          obtain ⟨-, hst, hrt⟩ := h
          subst hrt
          constructor
          · intro hnone
            rw [← hst, updateServerCredsCache_memRefresh, getVal_google_tokens,
              hnone, Option.getD_none, resolveRefreshToken_ok st rt0 hres]
            rfl
          · intro v hv
            rw [← hst, updateServerCredsCache_memRefresh, getVal_google_tokens,
              hv, Option.getD_some]

/-- C8 witness: the theorem applied at a concrete successful Google refresh
whose response rotates the refresh token to `"nr"`. -/
theorem C8_witness :
    (googleRefreshBearerToken false
        (200, [(bearerKey, JVal.str "nb"), (refreshKey, JVal.str "nr")]) false
        ⟨some "b", some "r", false, none⟩).st.memRefresh = some "nr" :=
  (C8_google_refresh_token_rotation false
      (200, [(bearerKey, JVal.str "nb"), (refreshKey, JVal.str "nr")]) false
      ⟨some "b", some "r", false, none⟩ "r"
      ((googleRefreshBearerToken false
          (200, [(bearerKey, JVal.str "nb"), (refreshKey, JVal.str "nr")]) false
          ⟨some "b", some "r", false, none⟩).st) rfl).2
    (JVal.str "nr") rfl

end AuthCore

namespace AuthCore

/-- C10: on a token-endpoint response whose JSON maps `access_token` to
`null`, the three refresh variants diverge: the generic variant's dict
comprehension filters the `null` out, so the bearer key is omitted from the
update and the stored bearer token is unchanged, while the Google and
HubSpot variants apply Python `str` to the `None` and successfully store the
literal string `"None"` as the bearer token. -/
theorem C10_null_access_token_divergence (wf : Bool) (st : AMState)
    (rt : String) (hres : resolveRefreshToken st = .ok rt) :
    (refreshBearerToken false (200, [(bearerKey, JVal.null)]) wf st).err =
      none ∧
    (refreshBearerToken false (200, [(bearerKey, JVal.null)]) wf
        st).st.memBearer = st.memBearer ∧
    (googleRefreshBearerToken false (200, [(bearerKey, JVal.null)]) wf
        st).err = none ∧
    (googleRefreshBearerToken false (200, [(bearerKey, JVal.null)]) wf
        st).st.memBearer = some "None" ∧
    (hubspotRefreshBearerToken false (200, [(bearerKey, JVal.null)]) wf
        st).err = none ∧
    (hubspotRefreshBearerToken false (200, [(bearerKey, JVal.null)]) wf
        st).st.memBearer = some "None" := by
  have e1 : refreshBearerToken false (200, [(bearerKey, JVal.null)]) wf st =
      ⟨none, updateServerCredsCache wf [] st, [rt]⟩ := by
    unfold refreshBearerToken
    rw [hres]
    rfl
  have e2 : googleRefreshBearerToken false (200, [(bearerKey, JVal.null)])
      wf st =
      ⟨none, updateServerCredsCache wf
        [(bearerKey, JVal.str "None"), (refreshKey, JVal.str rt)] st, [rt]⟩ := by
    unfold googleRefreshBearerToken
    rw [hres]
    rfl
  have e3 : hubspotRefreshBearerToken false (200, [(bearerKey, JVal.null)])
      wf st =
      ⟨none, updateServerCredsCache wf
        [(refreshKey, JVal.str rt), (bearerKey, JVal.str "None")] st, [rt]⟩ := by
    unfold hubspotRefreshBearerToken
    rw [hres]
    rfl
  refine ⟨?_, ?_, ?_, ?_, ?_, ?_⟩
  · rw [e1]
  · rw [e1, updateServerCredsCache_memBearer]
    rfl
  · rw [e2]
  · rw [e2, updateServerCredsCache_memBearer]
    rfl
  · rw [e3]
  · rw [e3, updateServerCredsCache_memBearer]
    rfl

/-- C10 witness: the theorem applied at a concrete state holding the
credential pair ("b", "r"). -/
theorem C10_witness :
    (refreshBearerToken false (200, [(bearerKey, JVal.null)]) false
        ⟨some "b", some "r", false, none⟩).err = none ∧
    (refreshBearerToken false (200, [(bearerKey, JVal.null)]) false
        ⟨some "b", some "r", false, none⟩).st.memBearer =
      (⟨some "b", some "r", false, none⟩ : AMState).memBearer ∧
    (googleRefreshBearerToken false (200, [(bearerKey, JVal.null)]) false
        ⟨some "b", some "r", false, none⟩).err = none ∧
    (googleRefreshBearerToken false (200, [(bearerKey, JVal.null)]) false
        ⟨some "b", some "r", false, none⟩).st.memBearer = some "None" ∧
    (hubspotRefreshBearerToken false (200, [(bearerKey, JVal.null)]) false
        ⟨some "b", some "r", false, none⟩).err = none ∧
    (hubspotRefreshBearerToken false (200, [(bearerKey, JVal.null)]) false
        ⟨some "b", some "r", false, none⟩).st.memBearer = some "None" :=
  C10_null_access_token_divergence false ⟨some "b", some "r", false, none⟩
    "r" rfl

end AuthCore

namespace AuthCore

/-- C2 counterexample: the claim says that after a first 401 exactly one
`refresh()` call occurs even when the second response is again 401.  In the
code the `for _ in range(2)` loop runs its 401 check on the second iteration
too, so when both responses are 401 the refresh is invoked twice: here a
concrete run with both data-plane responses 401 and a healthy token endpoint
performs 2 refresh calls, not 1 (the second response is still what is
returned). -/
theorem C2_counterexample :
    (requestWithReauth
        ⟨false, false, 401, 401,
          (200, [(bearerKey, JVal.str "B2"), (refreshKey, JVal.str "R2")]),
          (200, [(bearerKey, JVal.str "B3"), (refreshKey, JVal.str "R3")])⟩
        ⟨some "B1", some "R1", false, none⟩).refreshCalls = 2 ∧
    (requestWithReauth
        ⟨false, false, 401, 401,
          (200, [(bearerKey, JVal.str "B2"), (refreshKey, JVal.str "R2")]),
          (200, [(bearerKey, JVal.str "B3"), (refreshKey, JVal.str "R3")])⟩
        ⟨some "B1", some "R1", false, none⟩).refreshCalls ≠ 1 ∧
    (requestWithReauth
        ⟨false, false, 401, 401,
          (200, [(bearerKey, JVal.str "B2"), (refreshKey, JVal.str "R2")]),
          (200, [(bearerKey, JVal.str "B3"), (refreshKey, JVal.str "R3")])⟩
        ⟨some "B1", some "R1", false, none⟩).response = some 401 ∧
    (requestWithReauth
        ⟨false, false, 401, 401,
          (200, [(bearerKey, JVal.str "B2"), (refreshKey, JVal.str "R2")]),
          (200, [(bearerKey, JVal.str "B3"), (refreshKey, JVal.str "R3")])⟩
        ⟨some "B1", some "R1", false, none⟩).err = none := by
  refine ⟨rfl, by decide, rfl, rfl⟩

/-- C2 (amended): in `_request_with_reauth`, a first response with a non-401
status is returned immediately, with no refresh call and no retry; a first
401 triggers a refresh and exactly one retry carrying the bearer token
current after that refresh, and the second response is what is returned —
with exactly one refresh call when the second response is not 401, but with
a second refresh call (before returning) when the second response is again
401. -/
theorem C2_request_with_reauth_amended (env : ReqEnv) (st : AMState)
    (t1 : String) (h1 : getBearerToken st = .ok t1) :
    (env.req1Status ≠ 401 →
      requestWithReauth env st = ⟨none, some env.req1Status, 0, [t1], st⟩) ∧
    (∀ st1 sent1 t2, env.req1Status = 401 →
      googleRefreshBearerToken env.sandbox env.tokResp1 env.writeFails st =
        ⟨none, st1, sent1⟩ →
      getBearerToken st1 = .ok t2 →
      ((env.req2Status ≠ 401 →
          requestWithReauth env st =
            ⟨none, some env.req2Status, 1, [t1, t2], st1⟩) ∧
        (∀ st2 sent2, env.req2Status = 401 →
          googleRefreshBearerToken env.sandbox env.tokResp2 env.writeFails
              st1 = ⟨none, st2, sent2⟩ →
          requestWithReauth env st =
            ⟨none, some 401, 2, [t1, t2], st2⟩))) := by
  constructor
  · intro hne
    have hb1 : (env.req1Status == 401) = false := beq_eq_false_iff_ne.mpr hne
    simp only [requestWithReauth, h1, hb1, Bool.false_eq_true, if_false]
  · intro st1 sent1 t2 h401 href1 h2
    have hb1 : (env.req1Status == 401) = true := beq_iff_eq.mpr h401
    constructor
    · intro hne2
      have hb2 : (env.req2Status == 401) = false := beq_eq_false_iff_ne.mpr hne2
      simp only [requestWithReauth, h1, hb1, href1, h2, hb2, if_true,
        Bool.false_eq_true, if_false]
    · intro st2 sent2 h401b href2
      have hb2 : (env.req2Status == 401) = true := beq_iff_eq.mpr h401b
      simp only [requestWithReauth, h1, hb1, href1, h2, hb2, href2, h401b,
        if_true]
      rfl

/-- C2 witness: the amended theorem applied at a concrete environment whose
first response is 200 — returned immediately with no refresh call. -/
theorem C2_witness :
    requestWithReauth ⟨false, false, 200, 200, (200, []), (200, [])⟩
        ⟨some "B1", some "R1", false, none⟩ =
      ⟨none, some 200, 0, ["B1"], ⟨some "B1", some "R1", false, none⟩⟩ :=
  (C2_request_with_reauth_amended
      ⟨false, false, 200, 200, (200, []), (200, [])⟩
      ⟨some "B1", some "R1", false, none⟩ "B1" rfl).1 (by decide)

end AuthCore
